import Mathlib

/-!
Portsmouth zoning-compliance core: a shallow embedding.

This file embeds the zoning-compliance evaluation and metrics-aggregation
engine of the `psm-zoing-project` repository in Lean 4 and proves properties
of it.  Monetary amounts, areas and percentages (Python floats) are modelled
as rationals; Python `None` becomes `Option`; Python dicts (which preserve
insertion order) become association lists with insertion-order-preserving
update; Python `round(x, 2)` (round-half-to-even) is modelled explicitly.

Sources embedded:
* `portsmouth_zoning_rules.py` / `portsmouth_zoning_rules_corrected.py`
  (rule tables, `LAND_USE_CLASSIFICATIONS`, `classify_land_use`),
* `reanalyze_with_corrected_rules.py` (`check_zoning_violations`,
  `analyze_violations`),
* `analyze_with_violations.py` (`check_zoning_violations`,
  `analyze_properties`),
* `analyze_portsmouth_zoning.py` / `generate_comparative_report.py`
  (`calculate_metrics` / `calculate_zone_metrics`,
  `generate_residential_comparison` statistics),
* `infrastructure_burden_analysis.py` (`calculate_infrastructure_metrics`).
-/

/-- Insertion-ordered association-list lookup (Python `dict` access /
`dict.get`): first binding of the key, if any. -/
def lookupA {K A : Type} [DecidableEq K] : List (K × A) → K → Option A
  | [], _ => none
  | kv :: t, k => if kv.1 = k then some kv.2 else lookupA t k

/-- Insertion-ordered association-list update with default (Python
`defaultdict` access-and-mutate): update the first binding of `k` by `f`,
or append a fresh binding `(k, f d)` at the end. -/
def updAssoc {K A : Type} [DecidableEq K] : List (K × A) → K → A → (A → A) → List (K × A)
  | [], k, d, f => [(k, f d)]
  | kv :: t, k, d, f =>
      if kv.1 = k then (kv.1, f kv.2) :: t else kv :: updAssoc t k d f

/-- Round-half-to-even to an integer (the rounding mode of Python `round`). -/
def halfEven (q : ℚ) : ℤ :=
  let f := Int.floor q
  let r := q - f
  if r < 1/2 then f
  else if 1/2 < r then f + 1
  else if Even f then f else f + 1

/-- Python `round(x, 2)`: round-half-to-even at two decimal places. -/
def round2 (q : ℚ) : ℚ := (halfEven (100 * q) : ℚ) / 100

/-- One entry of the `ZONING_RULES` tables (`portsmouth_zoning_rules.py`,
`portsmouth_zoning_rules_corrected.py`).  `none` models Python `None`. -/
structure ZoneRule where
  name : String
  min_lot_size_sqft : Option ℚ
  min_frontage_ft : Option ℚ
  max_lot_coverage_pct : Option ℚ
  min_open_space_pct : Option ℚ
  front_setback_ft : Option ℚ
  side_setback_ft : Option ℚ
  rear_setback_ft : Option ℚ
  allowed_uses : List String
  deriving DecidableEq, Repr

/-- A normalized property record (the dicts built by
`extract_property_info`; the documented PropertyRecord input domain of the
core, with every numeric field present). -/
structure Property where
  parcel_id : String
  address : String
  owner : String
  zoning : Option String
  land_use_desc : Option String
  total_value : ℚ
  land_value : ℚ
  parcel_area_acres : ℚ
  parcel_area_sqft : ℚ
  building_footprint_sqft : ℚ
  lot_coverage_pct : ℚ
  deriving DecidableEq, Repr

/-- The closed set of violation types emitted by `check_zoning_violations`. -/
inductive VType where
  | undersized_lot
  | excess_lot_coverage
  | incompatible_use
  deriving DecidableEq, Repr

/-- Violation severities. -/
inductive Severity where
  | major
  | critical
  deriving DecidableEq, Repr

/-- One violation finding (the dicts appended by `check_zoning_violations`);
the human-readable `description` string is presentation-only and omitted,
the type-specific numeric payload is kept. -/
structure Violation where
  vtype : VType
  severity : Severity
  deficit : Option ℚ
  excess_pct : Option ℚ
  current_use : Option String
  allowed_uses : Option (List String)
  deriving DecidableEq, Repr

/-- Table `ZONING_RULES` of `portsmouth_zoning_rules.py` (the original table, used
by `analyze_with_violations.py`), as an insertion-ordered association list. -/
def ZONING_RULES : List (String × ZoneRule) :=
  [ ("SRB",
      { name := "Single Residence B", min_lot_size_sqft := some 7500,
        min_frontage_ft := some 100, max_lot_coverage_pct := some 25,
        min_open_space_pct := some 30, front_setback_ft := some 30,
        side_setback_ft := some 10, rear_setback_ft := some 20,
        allowed_uses := ["single_family", "accessory_dwelling"] }),
    ("SRA",
      { name := "Single Residence A", min_lot_size_sqft := some 15000,
        min_frontage_ft := some 125, max_lot_coverage_pct := some 20,
        min_open_space_pct := some 40, front_setback_ft := some 35,
        side_setback_ft := some 15, rear_setback_ft := some 25,
        allowed_uses := ["single_family", "accessory_dwelling"] }),
    ("GRA",
      { name := "General Residence A", min_lot_size_sqft := some 5000,
        min_frontage_ft := some 50, max_lot_coverage_pct := some 50,
        min_open_space_pct := some 20, front_setback_ft := some 20,
        side_setback_ft := some 10, rear_setback_ft := some 20,
        allowed_uses := ["single_family", "two_family", "multi_family", "accessory_dwelling"] }),
    ("M",
      { name := "Municipal", min_lot_size_sqft := none,
        min_frontage_ft := none, max_lot_coverage_pct := none,
        min_open_space_pct := none, front_setback_ft := none,
        side_setback_ft := none, rear_setback_ft := none,
        allowed_uses := ["municipal", "public"] }),
    ("R",
      { name := "Residential", min_lot_size_sqft := some 10000,
        min_frontage_ft := some 100, max_lot_coverage_pct := some 30,
        min_open_space_pct := some 30, front_setback_ft := some 30,
        side_setback_ft := some 15, rear_setback_ft := some 25,
        allowed_uses := ["single_family", "accessory_dwelling"] }),
    ("G1",
      { name := "General Business 1", min_lot_size_sqft := some 5000,
        min_frontage_ft := some 50, max_lot_coverage_pct := some 70,
        min_open_space_pct := some 10, front_setback_ft := some 10,
        side_setback_ft := some 0, rear_setback_ft := some 10,
        allowed_uses := ["commercial", "retail", "office", "mixed_use"] }),
    ("NRP",
      { name := "Natural Resource Protection", min_lot_size_sqft := some 43560,
        min_frontage_ft := some 150, max_lot_coverage_pct := some 10,
        min_open_space_pct := some 70, front_setback_ft := some 50,
        side_setback_ft := some 25, rear_setback_ft := some 50,
        allowed_uses := ["conservation", "agriculture", "single_family"] }) ]

/-- Table `ZONING_RULES` of `portsmouth_zoning_rules_corrected.py` (the corrected
table, used by `reanalyze_with_corrected_rules.py`,
`generate_comparative_report.py` and `infrastructure_burden_analysis.py`). -/
def ZONING_RULES_CORRECTED : List (String × ZoneRule) :=
  [ ("R",
      { name := "Residential", min_lot_size_sqft := some 217800,
        min_frontage_ft := none, max_lot_coverage_pct := some 5,
        min_open_space_pct := some 75, front_setback_ft := some 50,
        side_setback_ft := some 20, rear_setback_ft := some 40,
        allowed_uses := ["single_family", "accessory_dwelling"] }),
    ("SRA",
      { name := "Single Residence A", min_lot_size_sqft := some 43560,
        min_frontage_ft := some 150, max_lot_coverage_pct := some 10,
        min_open_space_pct := some 50, front_setback_ft := some 30,
        side_setback_ft := some 20, rear_setback_ft := some 40,
        allowed_uses := ["single_family", "accessory_dwelling"] }),
    ("SRB",
      { name := "Single Residence B", min_lot_size_sqft := some 15000,
        min_frontage_ft := some 100, max_lot_coverage_pct := some 20,
        min_open_space_pct := some 40, front_setback_ft := some 30,
        side_setback_ft := some 10, rear_setback_ft := some 30,
        allowed_uses := ["single_family", "accessory_dwelling"] }),
    ("GRA",
      { name := "General Residence A", min_lot_size_sqft := some 7500,
        min_frontage_ft := some 100, max_lot_coverage_pct := some 25,
        min_open_space_pct := some 30, front_setback_ft := some 15,
        side_setback_ft := some 10, rear_setback_ft := some 20,
        allowed_uses := ["single_family", "two_family", "multi_family", "accessory_dwelling"] }),
    ("GRB",
      { name := "General Residence B", min_lot_size_sqft := some 5000,
        min_frontage_ft := some 80, max_lot_coverage_pct := some 30,
        min_open_space_pct := some 25, front_setback_ft := some 5,
        side_setback_ft := some 10, rear_setback_ft := some 25,
        allowed_uses := ["single_family", "two_family", "multi_family", "accessory_dwelling"] }),
    ("GRC",
      { name := "General Residence C", min_lot_size_sqft := some 3500,
        min_frontage_ft := some 70, max_lot_coverage_pct := some 35,
        min_open_space_pct := some 20, front_setback_ft := some 5,
        side_setback_ft := some 10, rear_setback_ft := some 20,
        allowed_uses := ["single_family", "two_family", "multi_family", "accessory_dwelling"] }),
    ("MRO",
      { name := "Mixed Residential Office", min_lot_size_sqft := some 7500,
        min_frontage_ft := some 100, max_lot_coverage_pct := some 40,
        min_open_space_pct := some 25, front_setback_ft := some 5,
        side_setback_ft := some 10, rear_setback_ft := some 15,
        allowed_uses := ["single_family", "two_family", "multi_family", "office", "mixed_use"] }),
    ("MRB",
      { name := "Mixed Residential Business", min_lot_size_sqft := some 7500,
        min_frontage_ft := some 100, max_lot_coverage_pct := some 40,
        min_open_space_pct := some 25, front_setback_ft := some 5,
        side_setback_ft := some 10, rear_setback_ft := some 15,
        allowed_uses := ["single_family", "two_family", "multi_family", "commercial", "mixed_use"] }),
    ("GA/MH",
      { name := "Garden Apartment/Mobile Home Park", min_lot_size_sqft := some 217800,
        min_frontage_ft := none, max_lot_coverage_pct := some 20,
        min_open_space_pct := some 50, front_setback_ft := some 30,
        side_setback_ft := some 25, rear_setback_ft := some 25,
        allowed_uses := ["multi_family", "mobile_home"] }),
    ("B",
      { name := "Business", min_lot_size_sqft := some 20000,
        min_frontage_ft := some 100, max_lot_coverage_pct := some 35,
        min_open_space_pct := some 15, front_setback_ft := some 20,
        side_setback_ft := some 15, rear_setback_ft := some 15,
        allowed_uses := ["commercial", "retail", "office", "mixed_use"] }),
    ("GB",
      { name := "General Business", min_lot_size_sqft := some 43560,
        min_frontage_ft := some 200, max_lot_coverage_pct := some 30,
        min_open_space_pct := some 20, front_setback_ft := some 30,
        side_setback_ft := some 30, rear_setback_ft := some 50,
        allowed_uses := ["commercial", "retail", "office", "mixed_use"] }),
    ("G1",
      { name := "General Business 1", min_lot_size_sqft := some 43560,
        min_frontage_ft := some 200, max_lot_coverage_pct := some 30,
        min_open_space_pct := some 20, front_setback_ft := some 30,
        side_setback_ft := some 30, rear_setback_ft := some 50,
        allowed_uses := ["commercial", "retail", "office", "mixed_use"] }),
    ("G2",
      { name := "General Business 2", min_lot_size_sqft := some 43560,
        min_frontage_ft := some 200, max_lot_coverage_pct := some 30,
        min_open_space_pct := some 20, front_setback_ft := some 30,
        side_setback_ft := some 30, rear_setback_ft := some 50,
        allowed_uses := ["commercial", "retail", "office", "mixed_use"] }),
    ("WB",
      { name := "Waterfront Business", min_lot_size_sqft := some 20000,
        min_frontage_ft := some 100, max_lot_coverage_pct := some 30,
        min_open_space_pct := some 20, front_setback_ft := some 30,
        side_setback_ft := some 30, rear_setback_ft := some 20,
        allowed_uses := ["commercial", "retail", "office", "marine"] }),
    ("I",
      { name := "Industrial", min_lot_size_sqft := some 87120,
        min_frontage_ft := some 200, max_lot_coverage_pct := some 50,
        min_open_space_pct := some 20, front_setback_ft := some 70,
        side_setback_ft := some 50, rear_setback_ft := some 50,
        allowed_uses := ["industrial", "manufacturing"] }),
    ("WI",
      { name := "Waterfront Industrial", min_lot_size_sqft := some 87120,
        min_frontage_ft := some 200, max_lot_coverage_pct := some 50,
        min_open_space_pct := some 20, front_setback_ft := some 70,
        side_setback_ft := some 50, rear_setback_ft := some 50,
        allowed_uses := ["industrial", "manufacturing", "marine"] }),
    ("OR",
      { name := "Office Research", min_lot_size_sqft := some 130680,
        min_frontage_ft := some 300, max_lot_coverage_pct := some 30,
        min_open_space_pct := some 30, front_setback_ft := some 50,
        side_setback_ft := some 75, rear_setback_ft := some 50,
        allowed_uses := ["office", "research", "technology"] }),
    ("M",
      { name := "Municipal", min_lot_size_sqft := none,
        min_frontage_ft := none, max_lot_coverage_pct := none,
        min_open_space_pct := none, front_setback_ft := none,
        side_setback_ft := none, rear_setback_ft := none,
        allowed_uses := ["municipal", "public"] }),
    ("NRP",
      { name := "Natural Resource Protection", min_lot_size_sqft := some 217800,
        min_frontage_ft := some 150, max_lot_coverage_pct := some 10,
        min_open_space_pct := some 70, front_setback_ft := some 50,
        side_setback_ft := some 25, rear_setback_ft := some 50,
        allowed_uses := ["conservation", "agriculture", "single_family"] }) ]

/-- Mapping `LAND_USE_CLASSIFICATIONS`: the fixed ordered mapping of substring keys
to standardized use categories (identical in both rule modules); the list
order is the Python dict's definition order. -/
def LAND_USE_CLASSIFICATIONS : List (String × String) :=
  [ ("SINGLE FAM", "single_family"),
    ("TWO FAM", "two_family"),
    ("MULTI FAM", "multi_family"),
    ("CONDO", "multi_family"),
    ("APARTMENT", "multi_family"),
    ("COMMERCIAL", "commercial"),
    ("RETAIL", "retail"),
    ("OFFICE", "office"),
    ("INDUSTRIAL", "industrial"),
    ("MUNICIPAL", "municipal"),
    ("VACANT", "vacant"),
    ("MIXED USE", "mixed_use") ]

/-- Substring occurrence on character lists (Python `key in s`): a needle is
contained in the haystack when it prefixes the haystack or occurs in its
tail.  The empty needle is contained in every haystack. -/
def hasSubstr (n : List Char) : List Char → Bool
  | [] => n.isEmpty
  | c :: t => if n.isPrefixOf (c :: t) then true else hasSubstr n t

/-- Python `str.upper()` (claims only involve ASCII descriptions); defined
on the character list so that it evaluates by kernel reduction. -/
def upperStr (s : String) : String := String.mk (s.data.map Char.toUpper)

/-- The scanning loop of `classify_land_use`: return the category of the
first table key contained in the (already uppercased) description, `other`
when no key matches. -/
def findClass (u : String) : List (String × String) → String
  | [] => "other"
  | (k, v) :: rest => if hasSubstr k.toList u.toList then v else findClass u rest

/-- Function `classify_land_use` (`portsmouth_zoning_rules_corrected.py`, lines
236-245; identical in `portsmouth_zoning_rules.py`).  The argument is
`Option String` because the callers pass `property.get('land_use_desc', '')`
which may be `None`; Python `if not land_use_desc` catches both `None` and
the empty string. -/
def classify_land_use (land_use_desc : Option String) : String :=
  match land_use_desc with
  | none => "unknown"
  | some s => if s = "" then "unknown" else findClass (upperStr s) LAND_USE_CLASSIFICATIONS

/-- The lot-size block of `check_zoning_violations`: emits `undersized_lot`
when `min_lot_size_sqft` is truthy (present and nonzero) and the parcel area
is strictly below it. -/
def lotSizeCheck (rules : ZoneRule) (p : Property) : List Violation :=
  match rules.min_lot_size_sqft with
  | none => []
  | some m =>
      if m = 0 then []
      else if p.parcel_area_sqft < m then
        [{ vtype := VType.undersized_lot, severity := Severity.major,
           deficit := some (m - p.parcel_area_sqft), excess_pct := none,
           current_use := none, allowed_uses := none }]
      else []

/-- The lot-coverage block of `check_zoning_violations`: emits
`excess_lot_coverage` when `max_lot_coverage_pct` is truthy, the property's
coverage is strictly positive, and the coverage strictly exceeds the
maximum. -/
def coverageCheck (rules : ZoneRule) (p : Property) : List Violation :=
  match rules.max_lot_coverage_pct with
  | none => []
  | some mx =>
      if mx = 0 then []
      else if p.lot_coverage_pct ≤ 0 then []
      else if mx < p.lot_coverage_pct then
        [{ vtype := VType.excess_lot_coverage, severity := Severity.major,
           deficit := none, excess_pct := some (p.lot_coverage_pct - mx),
           current_use := none, allowed_uses := none }]
      else []

/-- The land-use-compatibility block of `check_zoning_violations`: emits
`incompatible_use` when `allowed_uses` is truthy (non-empty), the classified
use is neither `unknown` nor `vacant`, and the classified use is not in the
allowed set. -/
def landUseCheck (rules : ZoneRule) (p : Property) : List Violation :=
  let land_use := classify_land_use p.land_use_desc
  if rules.allowed_uses = [] then []
  else if land_use = "unknown" ∨ land_use = "vacant" then []
  else if land_use ∈ rules.allowed_uses then []
  else
    [{ vtype := VType.incompatible_use, severity := Severity.critical,
       deficit := none, excess_pct := none,
       current_use := some land_use, allowed_uses := some rules.allowed_uses }]

/-- Function `check_zoning_violations` (`reanalyze_with_corrected_rules.py` lines
12-54; textually identical in `analyze_with_violations.py` lines 139-181 and
`generate_comparative_report.py` lines 68-110, differing only in which rule
table the module imports, so the table is a parameter here).  Returns the
empty list when the zoning code is absent, empty, or not a key of the
table. -/
def check_zoning_violations (table : List (String × ZoneRule)) (p : Property) :
    List Violation :=
  match p.zoning with
  | none => []
  | some z =>
      if z = "" then []
      else
        match lookupA table z with
        | none => []
        | some rules => lotSizeCheck rules p ++ coverageCheck rules p ++ landUseCheck rules p

/-- Generalized Python `round(x, n)`: round-half-to-even at `n` decimal
places. -/
def roundTo (n : ℕ) (q : ℚ) : ℚ := (halfEven (10 ^ n * q) : ℚ) / 10 ^ n

/-- The per-zone accumulator of `calculate_metrics` (the `zone_data`
defaultdict; `infrastructure_burden_analysis.py` accumulates the same three
numeric fields and never touches `land_uses`). -/
structure ZoneAcc where
  total_acres : ℚ
  total_value : ℚ
  parcel_count : ℕ
  land_uses : List (String × ℕ)
  deriving DecidableEq, Repr

/-- The defaultdict factory value for a fresh zone. -/
def zoneAccInit : ZoneAcc :=
  { total_acres := 0, total_value := 0, parcel_count := 0, land_uses := [] }

/-- Python `prop['land_use_desc'] or 'Unknown'`: the `or` replaces falsy values
(`None` and the empty string) by `'Unknown'`. -/
def landUseOrUnknown (d : Option String) : String :=
  match d with
  | none => "Unknown"
  | some s => if s = "" then "Unknown" else s

/-- One iteration of the accumulation loop of `calculate_metrics`
(`analyze_portsmouth_zoning.py` lines 80-94, identical in
`generate_comparative_report.py` lines 24-38): records with falsy zoning are
skipped; otherwise the zone accumulator and the running grand total of acres
are updated. -/
def metricsStep (st : List (String × ZoneAcc) × ℚ) (p : Property) :
    List (String × ZoneAcc) × ℚ :=
  match p.zoning with
  | none => st
  | some z =>
      if z = "" then st
      else
        let land_use := landUseOrUnknown p.land_use_desc
        (updAssoc st.1 z zoneAccInit (fun a =>
            { a with
              total_acres := a.total_acres + p.parcel_area_acres,
              total_value := a.total_value + p.total_value,
              parcel_count := a.parcel_count + 1,
              land_uses := updAssoc a.land_uses land_use 0 (· + 1) }),
         st.2 + p.parcel_area_acres)

/-- The accumulation pass of `calculate_metrics`: `zone_data` plus the grand
total of acres. -/
def zoneAccum (props : List Property) : List (String × ZoneAcc) × ℚ :=
  props.foldl metricsStep ([], 0)

/-- The per-zone output record of `calculate_metrics`
(`results['zones'][zone]`). -/
structure ZoneMetrics where
  total_acres : ℚ
  percent_of_land : ℚ
  total_value : ℚ
  revenue_density : ℚ
  parcel_count : ℕ
  land_uses : List (String × ℕ)
  deriving DecidableEq, Repr

/-- The per-zone post-processing of `calculate_metrics`
(`analyze_portsmouth_zoning.py` lines 101-112): percent of land and revenue
density with division-by-zero guards, rounded to two decimal places. -/
def mkZoneMetrics (total_acres : ℚ) (d : ZoneAcc) : ZoneMetrics :=
  let pct_of_land := if 0 < total_acres then d.total_acres / total_acres * 100 else 0
  let revenue_density := if 0 < d.total_acres then d.total_value / d.total_acres else 0
  { total_acres := round2 d.total_acres,
    percent_of_land := round2 pct_of_land,
    total_value := d.total_value,
    revenue_density := round2 revenue_density,
    parcel_count := d.parcel_count,
    land_uses := d.land_uses }

/-- The full result of `calculate_metrics`. -/
structure MetricsResult where
  total_acres : ℚ
  zones : List (String × ZoneMetrics)
  most_revenue_dense_zone : Option (String × ℚ)
  deriving DecidableEq, Repr

/-- Python `max(items, key=...)`: the first item attaining the maximal
revenue density, `none` on an empty zone mapping. -/
def maxByDensity : List (String × ZoneMetrics) → Option (String × ZoneMetrics)
  | [] => none
  | x :: t =>
      some (t.foldl (fun b y => if b.2.revenue_density < y.2.revenue_density then y else b) x)

/-- Function `calculate_metrics` (`analyze_portsmouth_zoning.py` lines 69-121;
textually identical as `calculate_zone_metrics` in
`generate_comparative_report.py` lines 13-65). -/
def calculate_metrics (props : List Property) : MetricsResult :=
  let st := zoneAccum props
  let zones := st.1.map (fun kv => (kv.1, mkZoneMetrics st.2 kv.2))
  { total_acres := st.2,
    zones := zones,
    most_revenue_dense_zone :=
      (maxByDensity zones).map (fun kv => (kv.1, round2 kv.2.revenue_density)) }

/-- One example record of the violation aggregators. -/
structure ExampleRecord where
  address : String
  parcel_id : String
  violations : List Violation
  deriving DecidableEq, Repr

/-- The per-zone summary of the violation aggregators
(`violations_by_zone[zone]`). -/
structure ZoneSummary where
  total_parcels : ℕ
  parcels_with_violations : ℕ
  violations_by_type : List (VType × ℕ)
  examples : List ExampleRecord
  deriving DecidableEq, Repr

/-- The defaultdict factory value for a fresh zone summary. -/
def zoneSummaryInit : ZoneSummary :=
  { total_parcels := 0, parcels_with_violations := 0,
    violations_by_type := [], examples := [] }

/-- Python `for v in violations: violations_by_type[v['type']] += 1`. -/
def bumpTypes (m : List (VType × ℕ)) (vs : List Violation) : List (VType × ℕ) :=
  vs.foldl (fun m v => updAssoc m v.vtype 0 (· + 1)) m

/-- The per-zone summary updates performed for one property inside the
aggregation loop: bump `total_parcels`, and when the evaluator reports
violations bump `parcels_with_violations`, tally `violations_by_type`, and
append an example while the zone's example list is still below the cap. -/
def vioUpd (check : Property → List Violation) (cap : ℕ) (p : Property)
    (s : ZoneSummary) : ZoneSummary :=
  let vs := check p
  let s := { s with total_parcels := s.total_parcels + 1 }
  if vs = [] then s
  else
    let s := { s with
      parcels_with_violations := s.parcels_with_violations + 1,
      violations_by_type := bumpTypes s.violations_by_type vs }
    if s.examples.length < cap then
      { s with examples := s.examples ++ [⟨p.address, p.parcel_id, vs⟩] }
    else s

/-- One iteration of the aggregation loop shared by `analyze_violations`
(`reanalyze_with_corrected_rules.py` lines 68-94) and `analyze_properties`
(`analyze_with_violations.py` lines 195-221): the loops are textually
identical up to the evaluator used and the example cap, so both are
parameters. -/
def vioStep (check : Property → List Violation) (cap : ℕ)
    (st : List (String × ZoneSummary) × List (Property × List Violation))
    (p : Property) :
    List (String × ZoneSummary) × List (Property × List Violation) :=
  match p.zoning with
  | none => st
  | some z =>
      if z = "" then st
      else
        let vs := check p
        (updAssoc st.1 z zoneSummaryInit (vioUpd check cap p),
         if vs = [] then st.2 else st.2 ++ [(p, vs)])

/-- The result shape of the violation aggregators. -/
structure ViolationAnalysis where
  violations_by_zone : List (String × ZoneSummary)
  all_violations : List (Property × List Violation)
  deriving DecidableEq, Repr

/-- The violation aggregation pass, generic in the evaluator and the example
cap. -/
def analyzeGen (check : Property → List Violation) (cap : ℕ)
    (props : List Property) : ViolationAnalysis :=
  let st := props.foldl (vioStep check cap) ([], [])
  { violations_by_zone := st.1, all_violations := st.2 }

/-- Function `analyze_violations` (`reanalyze_with_corrected_rules.py` lines 57-99):
corrected rule table, example cap 10. -/
def analyze_violations (props : List Property) : ViolationAnalysis :=
  analyzeGen (check_zoning_violations ZONING_RULES_CORRECTED) 10 props

/-- Function `analyze_properties` (`analyze_with_violations.py` lines 184-226):
original rule table, example cap 5. -/
def analyze_properties (props : List Property) : ViolationAnalysis :=
  analyzeGen (check_zoning_violations ZONING_RULES) 5 props

/-- Group statistics of `generate_residential_comparison`
(`generate_comparative_report.py` lines 163-215): the raw sums plus the
derived division-guarded rates. -/
structure GroupStats where
  total_acres : ℚ
  total_parcels : ℕ
  total_value : ℚ
  violations : ℕ
  undersized_lots : ℕ
  incompatible_uses : ℕ
  revenue_density : ℚ
  violation_rate : ℚ
  parcels_per_acre : ℚ
  deriving DecidableEq, Repr

/-- The zeroed group-statistics record (`sf_stats` / `mf_stats` initial
dicts). -/
def groupStatsInit : GroupStats :=
  { total_acres := 0, total_parcels := 0, total_value := 0, violations := 0,
    undersized_lots := 0, incompatible_uses := 0, revenue_density := 0,
    violation_rate := 0, parcels_per_acre := 0 }

/-- The per-group accumulation loops of `generate_residential_comparison`
(lines 181-205): sums over the group's zone codes of the zone metrics and of
the violation summary counts. -/
def accumGroup (metrics : MetricsResult) (vio : List (String × ZoneSummary))
    (zones : List String) : GroupStats :=
  zones.foldl (fun stats zone =>
    let stats :=
      match lookupA metrics.zones zone with
      | some zm =>
          { stats with
            total_acres := stats.total_acres + zm.total_acres,
            total_parcels := stats.total_parcels + zm.parcel_count,
            total_value := stats.total_value + zm.total_value }
      | none => stats
    match lookupA vio zone with
    | some vdata =>
        { stats with
          violations := stats.violations + vdata.parcels_with_violations,
          undersized_lots := stats.undersized_lots +
            (lookupA vdata.violations_by_type VType.undersized_lot).getD 0,
          incompatible_uses := stats.incompatible_uses +
            (lookupA vdata.violations_by_type VType.incompatible_use).getD 0 }
    | none => stats) groupStatsInit

/-- The derived group rates of `generate_residential_comparison` (lines
208-215): revenue density, violation rate and parcel density, each guarded
to 0 on a zero denominator. -/
def deriveGroupRates (s : GroupStats) : GroupStats :=
  { s with
    revenue_density := if 0 < s.total_acres then s.total_value / s.total_acres else 0,
    violation_rate :=
      if 0 < s.total_parcels then (s.violations : ℚ) / (s.total_parcels : ℚ) * 100 else 0,
    parcels_per_acre :=
      if 0 < s.total_acres then (s.total_parcels : ℚ) / s.total_acres else 0 }

/-- List `single_family_zones` of `generate_residential_comparison`. -/
def single_family_zones : List String := ["R", "SRA", "SRB"]

/-- List `multi_family_zones` of `generate_residential_comparison`. -/
def multi_family_zones : List String := ["GRA", "GRB", "GRC"]

/-- The statistics part of `generate_residential_comparison`: the fully
derived single-family and multi-family group statistics. -/
def residentialComparisonStats (metrics : MetricsResult)
    (vio : List (String × ZoneSummary)) : GroupStats × GroupStats :=
  (deriveGroupRates (accumGroup metrics vio single_family_zones),
   deriveGroupRates (accumGroup metrics vio multi_family_zones))

/-- The four cross-group ratio comparisons of
`generate_residential_comparison` (lines 280-283), each guarded to 0 on a
zero denominator. -/
structure ComparisonRatios where
  land_ratio : ℚ
  value_ratio : ℚ
  density_ratio : ℚ
  parcel_density_ratio : ℚ
  deriving DecidableEq, Repr

/-- Lines 280-283 of `generate_comparative_report.py`. -/
def comparisonRatios (sf mf : GroupStats) : ComparisonRatios :=
  { land_ratio := if 0 < mf.total_acres then sf.total_acres / mf.total_acres else 0,
    value_ratio := if 0 < mf.total_value then sf.total_value / mf.total_value else 0,
    density_ratio := if 0 < sf.revenue_density then mf.revenue_density / sf.revenue_density else 0,
    parcel_density_ratio :=
      if 0 < sf.parcels_per_acre then mf.parcels_per_acre / sf.parcels_per_acre else 0 }

/-- Python truthiness of an optional numeric field (`if min_frontage`):
false on `None` and on 0. -/
def truthyOpt (o : Option ℚ) : Bool :=
  match o with
  | none => false
  | some v => if v = 0 then false else true

/-- The per-zone numeric record of `calculate_infrastructure_metrics`
(`infrastructure_burden_analysis.py` lines 89-105). -/
structure InfraZoneMetrics where
  zone_name : String
  total_acres : ℚ
  parcel_count : ℕ
  total_value : ℚ
  avg_lot_size_sqft : ℚ
  avg_lot_size_acres : ℚ
  parcels_per_acre : ℚ
  revenue_per_parcel : ℚ
  revenue_per_acre : ℚ
  min_frontage_ft : Option ℚ
  min_lot_size_sqft : Option ℚ
  estimated_linear_infrastructure_ft : ℚ
  est_infrastructure_cost_per_parcel : ℚ
  density_factor : ℚ
  fiscal_sustainability_ratio : ℚ
  deriving DecidableEq, Repr

/-- The per-zone body of `calculate_infrastructure_metrics` (lines 57-105);
the caller reaches it only with a nonzero parcel count and nonzero acres.
The linear-infrastructure estimate and its cost use the Python-truthiness
guard on `min_frontage_ft`, and the fiscal sustainability ratio is guarded
to 0 when the estimated cost is not positive. -/
def infraZoneMetrics (rules : ZoneRule) (d : ZoneAcc) : InfraZoneMetrics :=
  let parcels := d.parcel_count
  let acres := d.total_acres
  let value := d.total_value
  let avg_lot_acres := acres / (parcels : ℚ)
  let avg_lot_sqft := avg_lot_acres * 43560
  let revenue_per_parcel := value / (parcels : ℚ)
  let revenue_per_acre := value / acres
  let min_frontage := rules.min_frontage_ft
  let min_lot_size := rules.min_lot_size_sqft
  let estimated_linear_infrastructure :=
    if truthyOpt min_frontage then min_frontage.getD 0 * (parcels : ℚ) else 0
  let est_infrastructure_cost_per_parcel :=
    if truthyOpt min_frontage then min_frontage.getD 0 * 500 else 0
  let parcels_per_acre := (parcels : ℚ) / acres
  let density_factor := if 0 < parcels_per_acre then 1 / parcels_per_acre else 0
  let fiscal_ratio :=
    if 0 < est_infrastructure_cost_per_parcel then
      revenue_per_parcel / est_infrastructure_cost_per_parcel
    else 0
  { zone_name := rules.name,
    total_acres := roundTo 2 acres,
    parcel_count := parcels,
    total_value := value,
    avg_lot_size_sqft := roundTo 0 avg_lot_sqft,
    avg_lot_size_acres := roundTo 3 avg_lot_acres,
    parcels_per_acre := roundTo 2 parcels_per_acre,
    revenue_per_parcel := roundTo 0 revenue_per_parcel,
    revenue_per_acre := roundTo 0 revenue_per_acre,
    min_frontage_ft := min_frontage,
    min_lot_size_sqft := min_lot_size,
    estimated_linear_infrastructure_ft := estimated_linear_infrastructure,
    est_infrastructure_cost_per_parcel := est_infrastructure_cost_per_parcel,
    density_factor := roundTo 3 density_factor,
    fiscal_sustainability_ratio := roundTo 2 fiscal_ratio }

/-- The accumulation loop of `calculate_infrastructure_metrics` (lines
30-40). -/
def infraStep (st : List (String × ZoneAcc)) (p : Property) : List (String × ZoneAcc) :=
  match p.zoning with
  | none => st
  | some z =>
      if z = "" then st
      else
        updAssoc st z zoneAccInit (fun a =>
          { a with
            total_acres := a.total_acres + p.parcel_area_acres,
            total_value := a.total_value + p.total_value,
            parcel_count := a.parcel_count + 1 })

/-- Function `calculate_infrastructure_metrics` (`infrastructure_burden_analysis.py`
lines 13-107): zones not in the corrected rule table, or with a zero parcel
count or zero acres, are skipped. -/
def calculate_infrastructure_metrics (props : List Property) :
    List (String × InfraZoneMetrics) :=
  let zd := props.foldl infraStep []
  zd.filterMap (fun kv =>
    match lookupA ZONING_RULES_CORRECTED kv.1 with
    | none => none
    | some rules =>
        if kv.2.parcel_count = 0 ∨ kv.2.total_acres = (0 : ℚ) then none
        else some (kv.1, infraZoneMetrics rules kv.2))

section AssocLemmas

variable {K A : Type} [DecidableEq K]

theorem lookupA_mem {l : List (K × A)} {k : K} {v : A}
    (h : lookupA l k = some v) : (k, v) ∈ l := by
  induction l with
  | nil => simp [lookupA] at h
  | cons kv t ih =>
      obtain ⟨k1, v1⟩ := kv
      simp only [lookupA] at h
      split at h
      · rename_i hk
        simp only [Option.some.injEq] at h
        subst hk; subst h
        exact List.mem_cons_self _ _
      · exact List.mem_cons_of_mem _ (ih h)

theorem lookupA_updAssoc_self (l : List (K × A)) (k : K) (d : A) (f : A → A) :
    lookupA (updAssoc l k d f) k = some (f ((lookupA l k).getD d)) := by
  induction l with
  | nil => simp [updAssoc, lookupA]
  | cons kv t ih =>
      obtain ⟨k1, v1⟩ := kv
      by_cases hk : k1 = k
      · simp [updAssoc, lookupA, hk]
      · simp [updAssoc, lookupA, hk, ih]

theorem lookupA_updAssoc_ne (l : List (K × A)) {k k' : K} (d : A) (f : A → A)
    (h : k' ≠ k) : lookupA (updAssoc l k d f) k' = lookupA l k' := by
  induction l with
  | nil => simp [updAssoc, lookupA, Ne.symm h]
  | cons kv t ih =>
      obtain ⟨k1, v1⟩ := kv
      by_cases hk : k1 = k
      · subst hk
        simp [updAssoc, lookupA, Ne.symm h]
      · by_cases hk' : k1 = k'
        · simp [updAssoc, lookupA, hk, hk', h]
        · simp [updAssoc, lookupA, hk, hk', ih]

theorem mem_updAssoc {l : List (K × A)} {k : K} {d : A} {f : A → A}
    {x : K × A} (hx : x ∈ updAssoc l k d f) :
    x ∈ l ∨ (x.1 = k ∧ x.2 = f ((lookupA l k).getD d)) := by
  induction l with
  | nil =>
      simp only [updAssoc, List.mem_singleton] at hx
      subst hx
      right
      simp [lookupA]
  | cons kv t ih =>
      obtain ⟨k1, v1⟩ := kv
      by_cases hk : k1 = k
      · subst hk
        simp only [updAssoc, if_pos rfl, if_true, List.mem_cons] at hx
        rcases hx with h1 | h1
        · subst h1
          right
          simp [lookupA]
        · exact Or.inl (List.mem_cons_of_mem _ h1)
      · simp only [updAssoc, if_neg hk, List.mem_cons] at hx
        rcases hx with h1 | h1
        · exact Or.inl (by simp [h1])
        · rcases ih h1 with h2 | h2
          · exact Or.inl (List.mem_cons_of_mem _ h2)
          · right
            simpa [lookupA, hk] using h2

theorem mem_keys_updAssoc (l : List (K × A)) (k k' : K) (d : A) (f : A → A) :
    k' ∈ (updAssoc l k d f).map Prod.fst ↔ k' = k ∨ k' ∈ l.map Prod.fst := by
  induction l with
  | nil => simp [updAssoc]
  | cons kv t ih =>
      obtain ⟨k1, v1⟩ := kv
      by_cases hk : k1 = k
      · subst hk
        simp [updAssoc]
      · simp [updAssoc, hk, ih]
        tauto

theorem sum_map_updAssoc (g : A → ℚ) (l : List (K × A)) (k : K)
    (d : A) (f : A → A) (c : ℚ) (hf : ∀ a, g (f a) = g a + c) (hd : g d = 0) :
    ((updAssoc l k d f).map (fun kv => g kv.2)).sum
      = (l.map (fun kv => g kv.2)).sum + c := by
  induction l with
  | nil => simp [updAssoc, hf, hd]
  | cons kv t ih =>
      obtain ⟨k1, v1⟩ := kv
      by_cases hk : k1 = k
      · simp only [updAssoc, if_pos hk, List.map_cons, List.sum_cons, hf]
        ring
      · simp only [updAssoc, if_neg hk, List.map_cons, List.sum_cons, ih]
        ring

end AssocLemmas

theorem check_eq_blocks {table : List (String × ZoneRule)} {p : Property}
    {z : String} {r : ZoneRule}
    (hz : p.zoning = some z) (hne : z ≠ "") (hr : lookupA table z = some r) :
    check_zoning_violations table p =
      lotSizeCheck r p ++ coverageCheck r p ++ landUseCheck r p := by
  simp [check_zoning_violations, hz, hne, hr]

theorem lotSizeCheck_of_some {r : ZoneRule} {m : ℚ} (hm : r.min_lot_size_sqft = some m)
    (hm0 : m ≠ 0) (p : Property) :
    lotSizeCheck r p =
      if p.parcel_area_sqft < m then
        [{ vtype := VType.undersized_lot, severity := Severity.major,
           deficit := some (m - p.parcel_area_sqft), excess_pct := none,
           current_use := none, allowed_uses := none }]
      else [] := by
  simp [lotSizeCheck, hm, hm0]

theorem coverageCheck_of_some {r : ZoneRule} {mx : ℚ}
    (hm : r.max_lot_coverage_pct = some mx) (hm0 : mx ≠ 0) (p : Property) :
    coverageCheck r p =
      if 0 < p.lot_coverage_pct ∧ mx < p.lot_coverage_pct then
        [{ vtype := VType.excess_lot_coverage, severity := Severity.major,
           deficit := none, excess_pct := some (p.lot_coverage_pct - mx),
           current_use := none, allowed_uses := none }]
      else [] := by
  simp only [coverageCheck, hm, if_neg hm0]
  by_cases h1 : p.lot_coverage_pct ≤ 0
  · simp [h1, not_lt.mpr h1, not_lt_of_le h1]
  · by_cases h2 : mx < p.lot_coverage_pct <;>
      simp [h1, h2, lt_of_not_le h1]

theorem lotSizeCheck_shape (r : ZoneRule) (p : Property) :
    lotSizeCheck r p = [] ∨ ∃ q : ℚ, lotSizeCheck r p =
      [{ vtype := VType.undersized_lot, severity := Severity.major, deficit := some q,
         excess_pct := none, current_use := none, allowed_uses := none }] := by
  unfold lotSizeCheck
  cases r.min_lot_size_sqft with
  | none => exact Or.inl rfl
  | some m =>
      by_cases hm0 : m = 0
      · simp [hm0]
      · by_cases hlt : p.parcel_area_sqft < m
        · exact Or.inr ⟨m - p.parcel_area_sqft, by simp [hm0, hlt]⟩
        · simp [hm0, hlt]

theorem coverageCheck_shape (r : ZoneRule) (p : Property) :
    coverageCheck r p = [] ∨ ∃ q : ℚ, coverageCheck r p =
      [{ vtype := VType.excess_lot_coverage, severity := Severity.major, deficit := none,
         excess_pct := some q, current_use := none, allowed_uses := none }] := by
  unfold coverageCheck
  cases r.max_lot_coverage_pct with
  | none => exact Or.inl rfl
  | some mx =>
      by_cases hm0 : mx = 0
      · simp [hm0]
      · by_cases h1 : p.lot_coverage_pct ≤ 0
        · simp [hm0, h1]
        · by_cases h2 : mx < p.lot_coverage_pct
          · exact Or.inr ⟨p.lot_coverage_pct - mx, by simp [hm0, h1, h2]⟩
          · simp [hm0, h1, h2]

theorem landUseCheck_shape (r : ZoneRule) (p : Property) :
    landUseCheck r p = [] ∨ ∃ u au, landUseCheck r p =
      [{ vtype := VType.incompatible_use, severity := Severity.critical, deficit := none,
         excess_pct := none, current_use := some u, allowed_uses := some au }] := by
  unfold landUseCheck
  by_cases h1 : r.allowed_uses = []
  · simp [h1]
  · by_cases h2 : classify_land_use p.land_use_desc = "unknown" ∨
        classify_land_use p.land_use_desc = "vacant"
    · simp [h1, h2]
    · by_cases h3 : classify_land_use p.land_use_desc ∈ r.allowed_uses
      · simp [h1, h2, h3]
      · exact Or.inr ⟨classify_land_use p.land_use_desc, r.allowed_uses,
          by simp [h1, h2, h3]⟩

theorem corrected_keys_nonempty :
    ∀ kv ∈ ZONING_RULES_CORRECTED, kv.1 ≠ "" := by decide

theorem corrected_min_nonzero :
    ∀ kv ∈ ZONING_RULES_CORRECTED, kv.2.min_lot_size_sqft ≠ some 0 := by decide

theorem corrected_maxcov_nonzero :
    ∀ kv ∈ ZONING_RULES_CORRECTED, kv.2.max_lot_coverage_pct ≠ some 0 := by decide

theorem corrected_key_ne_empty {z : String} {r : ZoneRule}
    (hr : lookupA ZONING_RULES_CORRECTED z = some r) : z ≠ "" :=
  corrected_keys_nonempty (z, r) (lookupA_mem hr)

theorem vtype_of_mem_lotSizeCheck {r : ZoneRule} {p : Property} {v : Violation}
    (h : v ∈ lotSizeCheck r p) : v.vtype = VType.undersized_lot := by
  rcases lotSizeCheck_shape r p with hs | ⟨q, hs⟩ <;> rw [hs] at h
  · simp at h
  · simp only [List.mem_singleton] at h
    rw [h]

theorem vtype_of_mem_coverageCheck {r : ZoneRule} {p : Property} {v : Violation}
    (h : v ∈ coverageCheck r p) : v.vtype = VType.excess_lot_coverage := by
  rcases coverageCheck_shape r p with hs | ⟨q, hs⟩ <;> rw [hs] at h
  · simp at h
  · simp only [List.mem_singleton] at h
    rw [h]

theorem vtype_of_mem_landUseCheck {r : ZoneRule} {p : Property} {v : Violation}
    (h : v ∈ landUseCheck r p) : v.vtype = VType.incompatible_use := by
  rcases landUseCheck_shape r p with hs | ⟨u, au, hs⟩ <;> rw [hs] at h
  · simp at h
  · simp only [List.mem_singleton] at h
    rw [h]

theorem findClass_eq_find (u : String) (l : List (String × String)) :
    findClass u l =
      (match l.find? (fun kv => hasSubstr kv.1.toList u.toList) with
       | some kv => kv.2
       | none => "other") := by
  induction l with
  | nil => rfl
  | cons kv t ih =>
      by_cases h : hasSubstr kv.1.data u.data = true
      · simp [findClass, List.find?, String.toList, h]
      · simp [findClass, List.find?, String.toList, h, ih]

/-- A demonstration property whose zoning code `XYZ` is not a key of either
rule table. -/
def propXYZ : Property :=
  { parcel_id := "0101-0001", address := "1 Example St", owner := "OWNER A",
    zoning := some "XYZ", land_use_desc := some "SINGLE FAM RES",
    total_value := 300000, land_value := 120000, parcel_area_acres := 1,
    parcel_area_sqft := 43560, building_footprint_sqft := 2000,
    lot_coverage_pct := 2000 / 43560 * 100 }

/-- Claim C5. The Land-Use Classifier `classify_land_use` is total and
deterministic (it is a Lean function): a null or empty description yields
`unknown`; otherwise the result is the category of the first key, in the
classification table's definition order, whose substring occurs in the
uppercased description, and `other` when no key's substring occurs. -/
theorem classify_land_use_first_match_spec :
    classify_land_use none = "unknown" ∧
    classify_land_use (some "") = "unknown" ∧
    ∀ s : String, s ≠ "" →
      classify_land_use (some s) =
        (match LAND_USE_CLASSIFICATIONS.find?
            (fun kv => hasSubstr kv.1.toList (upperStr s).toList) with
         | some kv => kv.2
         | none => "other") := by
  refine ⟨rfl, rfl, fun s hs => ?_⟩
  simp only [classify_land_use, if_neg hs]
  exact findClass_eq_find (upperStr s) LAND_USE_CLASSIFICATIONS

theorem classify_land_use_first_match_spec_witness :
    classify_land_use (some "SINGLE FAM RES") =
      (match LAND_USE_CLASSIFICATIONS.find?
          (fun kv => hasSubstr kv.1.toList (upperStr "SINGLE FAM RES").toList) with
       | some kv => kv.2
       | none => "other") :=
  classify_land_use_first_match_spec.2.2 "SINGLE FAM RES" (by decide)

/-- Claim C7. The Violation Evaluator is total over the documented
PropertyRecord domain (it is a Lean function into `List Violation`, so it
always returns a possibly-empty sequence and cannot fail), and it returns
the empty sequence whenever the record's zoning is absent, empty, or not a
key of the rule table. -/
theorem check_zoning_violations_empty_of_unknown_zone
    (table : List (String × ZoneRule)) (p : Property)
    (h : p.zoning = none ∨ p.zoning = some "" ∨
         ∃ z, p.zoning = some z ∧ lookupA table z = none) :
    check_zoning_violations table p = [] := by
  rcases h with h | h | ⟨z, hz, hlk⟩
  · simp [check_zoning_violations, h]
  · simp [check_zoning_violations, h]
  · by_cases hne : z = ""
    · simp [check_zoning_violations, hz, hne]
    · simp [check_zoning_violations, hz, hne, hlk]

theorem check_zoning_violations_empty_of_unknown_zone_witness :
    check_zoning_violations ZONING_RULES_CORRECTED propXYZ = [] :=
  check_zoning_violations_empty_of_unknown_zone ZONING_RULES_CORRECTED propXYZ
    (Or.inr (Or.inr ⟨"XYZ", rfl, by decide⟩))

theorem blocks_length_and_types (r : ZoneRule) (p : Property) :
    (lotSizeCheck r p ++ coverageCheck r p ++ landUseCheck r p).length ≤ 3 ∧
    ∀ t : VType,
      ((lotSizeCheck r p ++ coverageCheck r p ++ landUseCheck r p).countP
        (fun v => decide (v.vtype = t))) ≤ 1 := by
  rcases lotSizeCheck_shape r p with h1 | ⟨q1, h1⟩ <;>
    rcases coverageCheck_shape r p with h2 | ⟨q2, h2⟩ <;>
      rcases landUseCheck_shape r p with h3 | ⟨u3, au3, h3⟩
  all_goals rw [h1, h2, h3]
  all_goals
    refine ⟨by simp only [List.length_append, List.length_cons, List.length_nil]; omega,
      fun t => ?_⟩
  all_goals cases t <;> simp [List.countP_append, List.countP_cons]

/-- Claim C10. For every rule table and property record, the violation list
returned by the Violation Evaluator contains at most one violation of each
type, and therefore has length at most 3. -/
theorem check_zoning_violations_at_most_one_per_type
    (table : List (String × ZoneRule)) (p : Property) :
    (check_zoning_violations table p).length ≤ 3 ∧
    ∀ t : VType,
      ((check_zoning_violations table p).countP (fun v => decide (v.vtype = t))) ≤ 1 := by
  cases hz : p.zoning with
  | none => simp [check_zoning_violations, hz]
  | some z =>
      by_cases hne : z = ""
      · simp [check_zoning_violations, hz, hne]
      · cases hr : lookupA table z with
        | none => simp [check_zoning_violations, hz, hne, hr]
        | some r =>
            rw [check_eq_blocks hz hne hr]
            exact blocks_length_and_types r p

/-- A demonstration property in zone `SRB` whose parcel area 14999 sqft is
one below the corrected 15000 sqft minimum. -/
def propSRB14999 : Property :=
  { parcel_id := "0102-0002", address := "2 Example St", owner := "OWNER B",
    zoning := some "SRB", land_use_desc := some "SINGLE FAM RES",
    total_value := 250000, land_value := 90000,
    parcel_area_acres := 14999 / 43560, parcel_area_sqft := 14999,
    building_footprint_sqft := 1500, lot_coverage_pct := 1500 / 14999 * 100 }

/-- A demonstration property in zone `SRA` whose lot coverage 10.1 percent
is just above the corrected 10 percent maximum. -/
def propSRA101 : Property :=
  { parcel_id := "0103-0003", address := "3 Example St", owner := "OWNER C",
    zoning := some "SRA", land_use_desc := some "SINGLE FAM RES",
    total_value := 400000, land_value := 150000,
    parcel_area_acres := 1, parcel_area_sqft := 43560,
    building_footprint_sqft := 43560 * 101 / 1000,
    lot_coverage_pct := 101 / 10 }

/-- A demonstration property in zone `R` classified `multi_family`, which is
not among `R`'s allowed uses. -/
def propRmulti : Property :=
  { parcel_id := "0104-0004", address := "4 Example St", owner := "OWNER D",
    zoning := some "R", land_use_desc := some "MULTI FAM RES",
    total_value := 500000, land_value := 200000,
    parcel_area_acres := 6, parcel_area_sqft := 261360,
    building_footprint_sqft := 4000, lot_coverage_pct := 4000 / 261360 * 100 }

/-- Claim C3. For every property whose zone (in the corrected rule table) has
`min_lot_size_sqft` set, the evaluator emits an `undersized_lot` violation
(severity major, `deficit = min_lot_size_sqft - parcel_area_sqft`) exactly
when `parcel_area_sqft` is strictly below the minimum; a parcel exactly at
the minimum triggers no `undersized_lot` violation. -/
theorem undersized_lot_exactly_when_below_minimum
    (p : Property) (z : String) (r : ZoneRule) (m : ℚ)
    (hz : p.zoning = some z)
    (hr : lookupA ZONING_RULES_CORRECTED z = some r)
    (hm : r.min_lot_size_sqft = some m) :
    ((∃ v ∈ check_zoning_violations ZONING_RULES_CORRECTED p,
        v.vtype = VType.undersized_lot) ↔ p.parcel_area_sqft < m) ∧
    (p.parcel_area_sqft < m →
      ({ vtype := VType.undersized_lot, severity := Severity.major,
         deficit := some (m - p.parcel_area_sqft), excess_pct := none,
         current_use := none, allowed_uses := none } : Violation) ∈
        check_zoning_violations ZONING_RULES_CORRECTED p) ∧
    (p.parcel_area_sqft = m →
      ∀ v ∈ check_zoning_violations ZONING_RULES_CORRECTED p,
        v.vtype ≠ VType.undersized_lot) := by
  have hne := corrected_key_ne_empty hr
  have hm0 : m ≠ 0 := by
    intro h0
    exact corrected_min_nonzero (z, r) (lookupA_mem hr) (by rw [hm, h0])
  rw [check_eq_blocks hz hne hr, lotSizeCheck_of_some hm hm0]
  refine ⟨⟨?_, ?_⟩, ?_, ?_⟩
  · rintro ⟨v, hv, hvt⟩
    by_contra hlt
    rw [if_neg hlt, List.nil_append, List.mem_append] at hv
    rcases hv with hv | hv
    · rw [vtype_of_mem_coverageCheck hv] at hvt
      exact absurd hvt (by simp)
    · rw [vtype_of_mem_landUseCheck hv] at hvt
      exact absurd hvt (by simp)
  · intro hlt
    refine ⟨{ vtype := VType.undersized_lot, severity := Severity.major,
              deficit := some (m - p.parcel_area_sqft), excess_pct := none,
              current_use := none, allowed_uses := none }, ?_, rfl⟩
    rw [if_pos hlt]
    simp
  · intro hlt
    rw [if_pos hlt]
    simp
  · intro heq v hv
    rw [if_neg (by rw [heq]; exact lt_irrefl m), List.nil_append, List.mem_append] at hv
    rcases hv with hv | hv
    · rw [vtype_of_mem_coverageCheck hv]
      simp
    · rw [vtype_of_mem_landUseCheck hv]
      simp

theorem undersized_lot_exactly_when_below_minimum_witness :
    (∃ v ∈ check_zoning_violations ZONING_RULES_CORRECTED propSRB14999,
        v.vtype = VType.undersized_lot) ↔ propSRB14999.parcel_area_sqft < 15000 :=
  (undersized_lot_exactly_when_below_minimum propSRB14999 "SRB"
    ((ZONING_RULES_CORRECTED.get ⟨2, by decide⟩).2) 15000 rfl (by decide) (by decide)).1

/-- Claim C4. For every property whose zone (in the corrected rule table) has
`max_lot_coverage_pct` set, the evaluator emits an `excess_lot_coverage`
violation (severity major, `excess_pct = lot_coverage_pct -
max_lot_coverage_pct`) exactly when the property's coverage is strictly
positive and strictly above the maximum; coverage exactly at the maximum
triggers no violation. -/
theorem excess_coverage_exactly_when_above_maximum
    (p : Property) (z : String) (r : ZoneRule) (mx : ℚ)
    (hz : p.zoning = some z)
    (hr : lookupA ZONING_RULES_CORRECTED z = some r)
    (hm : r.max_lot_coverage_pct = some mx) :
    ((∃ v ∈ check_zoning_violations ZONING_RULES_CORRECTED p,
        v.vtype = VType.excess_lot_coverage) ↔
      (0 < p.lot_coverage_pct ∧ mx < p.lot_coverage_pct)) ∧
    (0 < p.lot_coverage_pct → mx < p.lot_coverage_pct →
      ({ vtype := VType.excess_lot_coverage, severity := Severity.major,
         deficit := none, excess_pct := some (p.lot_coverage_pct - mx),
         current_use := none, allowed_uses := none } : Violation) ∈
        check_zoning_violations ZONING_RULES_CORRECTED p) ∧
    (p.lot_coverage_pct = mx →
      ∀ v ∈ check_zoning_violations ZONING_RULES_CORRECTED p,
        v.vtype ≠ VType.excess_lot_coverage) := by
  have hne := corrected_key_ne_empty hr
  have hm0 : mx ≠ 0 := by
    intro h0
    exact corrected_maxcov_nonzero (z, r) (lookupA_mem hr) (by rw [hm, h0])
  rw [check_eq_blocks hz hne hr, coverageCheck_of_some hm hm0]
  refine ⟨⟨?_, ?_⟩, ?_, ?_⟩
  · rintro ⟨v, hv, hvt⟩
    by_contra hc
    rw [if_neg hc, List.append_nil, List.mem_append] at hv
    rcases hv with hv | hv
    · rw [vtype_of_mem_lotSizeCheck hv] at hvt
      exact absurd hvt (by simp)
    · rw [vtype_of_mem_landUseCheck hv] at hvt
      exact absurd hvt (by simp)
  · rintro ⟨h1, h2⟩
    refine ⟨{ vtype := VType.excess_lot_coverage, severity := Severity.major,
              deficit := none, excess_pct := some (p.lot_coverage_pct - mx),
              current_use := none, allowed_uses := none }, ?_, rfl⟩
    rw [if_pos ⟨h1, h2⟩]
    simp
  · intro h1 h2
    rw [if_pos ⟨h1, h2⟩]
    simp
  · intro heq v hv
    rw [if_neg (by rw [heq]; exact fun h => lt_irrefl mx h.2),
      List.append_nil, List.mem_append] at hv
    rcases hv with hv | hv
    · rw [vtype_of_mem_lotSizeCheck hv]
      simp
    · rw [vtype_of_mem_landUseCheck hv]
      simp

theorem excess_coverage_exactly_when_above_maximum_witness :
    (∃ v ∈ check_zoning_violations ZONING_RULES_CORRECTED propSRA101,
        v.vtype = VType.excess_lot_coverage) ↔
      (0 < propSRA101.lot_coverage_pct ∧ 10 < propSRA101.lot_coverage_pct) :=
  (excess_coverage_exactly_when_above_maximum propSRA101 "SRA"
    ((ZONING_RULES_CORRECTED.get ⟨1, by decide⟩).2) 10 rfl (by decide) (by decide)).1

/-- Claim C6. For every property with a zone in the corrected rule table, the
evaluator emits an `incompatible_use` violation (severity critical, carrying
the classified `current_use` and the zone's full `allowed_uses` list)
exactly when the classified use is neither `unknown` nor `vacant`, the
zone's `allowed_uses` is non-empty, and the classified use is not a member
of it; a property classified `vacant` or `unknown` never triggers
`incompatible_use`. -/
theorem incompatible_use_exactly_when_disallowed
    (p : Property) (z : String) (r : ZoneRule)
    (hz : p.zoning = some z)
    (hr : lookupA ZONING_RULES_CORRECTED z = some r) :
    ((∃ v ∈ check_zoning_violations ZONING_RULES_CORRECTED p,
        v.vtype = VType.incompatible_use) ↔
      (classify_land_use p.land_use_desc ≠ "unknown" ∧
       classify_land_use p.land_use_desc ≠ "vacant" ∧
       r.allowed_uses ≠ [] ∧
       classify_land_use p.land_use_desc ∉ r.allowed_uses)) ∧
    ((classify_land_use p.land_use_desc ≠ "unknown" ∧
      classify_land_use p.land_use_desc ≠ "vacant" ∧
      r.allowed_uses ≠ [] ∧
      classify_land_use p.land_use_desc ∉ r.allowed_uses) →
      ({ vtype := VType.incompatible_use, severity := Severity.critical,
         deficit := none, excess_pct := none,
         current_use := some (classify_land_use p.land_use_desc),
         allowed_uses := some r.allowed_uses } : Violation) ∈
        check_zoning_violations ZONING_RULES_CORRECTED p) ∧
    ((classify_land_use p.land_use_desc = "vacant" ∨
      classify_land_use p.land_use_desc = "unknown") →
      ∀ v ∈ check_zoning_violations ZONING_RULES_CORRECTED p,
        v.vtype ≠ VType.incompatible_use) := by
  have hne := corrected_key_ne_empty hr
  rw [check_eq_blocks hz hne hr]
  have huse : ∀ h1 : r.allowed_uses ≠ [],
      ∀ h2 : classify_land_use p.land_use_desc ≠ "unknown",
      ∀ h3 : classify_land_use p.land_use_desc ≠ "vacant",
      ∀ h4 : classify_land_use p.land_use_desc ∉ r.allowed_uses,
      landUseCheck r p =
        [{ vtype := VType.incompatible_use, severity := Severity.critical,
           deficit := none, excess_pct := none,
           current_use := some (classify_land_use p.land_use_desc),
           allowed_uses := some r.allowed_uses }] := by
    intro h1 h2 h3 h4
    simp only [landUseCheck, if_neg h1, if_neg (not_or.mpr ⟨h2, h3⟩), if_neg h4]
  refine ⟨⟨?_, ?_⟩, ?_, ?_⟩
  · rintro ⟨v, hv, hvt⟩
    rw [List.mem_append, List.mem_append] at hv
    rcases hv with (hv | hv) | hv
    · rw [vtype_of_mem_lotSizeCheck hv] at hvt
      exact absurd hvt (by simp)
    · rw [vtype_of_mem_coverageCheck hv] at hvt
      exact absurd hvt (by simp)
    · revert hv
      unfold landUseCheck
      by_cases h1 : r.allowed_uses = []
      · simp [h1]
      · by_cases h2 : classify_land_use p.land_use_desc = "unknown" ∨
            classify_land_use p.land_use_desc = "vacant"
        · simp [h1, h2]
        · by_cases h3 : classify_land_use p.land_use_desc ∈ r.allowed_uses
          · simp [h1, h2, h3]
          · push_neg at h2
            exact fun _ => ⟨h2.1, h2.2, h1, h3⟩
  · rintro ⟨h2, h3, h1, h4⟩
    refine ⟨{ vtype := VType.incompatible_use, severity := Severity.critical,
              deficit := none, excess_pct := none,
              current_use := some (classify_land_use p.land_use_desc),
              allowed_uses := some r.allowed_uses }, ?_, rfl⟩
    rw [huse h1 h2 h3 h4]
    simp
  · rintro ⟨h2, h3, h1, h4⟩
    rw [huse h1 h2 h3 h4]
    simp
  · intro hvac v hv
    rw [List.mem_append, List.mem_append] at hv
    rcases hv with (hv | hv) | hv
    · rw [vtype_of_mem_lotSizeCheck hv]
      simp
    · rw [vtype_of_mem_coverageCheck hv]
      simp
    · exfalso
      revert hv
      simp [landUseCheck, hvac.symm, Or.symm hvac]

theorem incompatible_use_exactly_when_disallowed_witness :
    (∃ v ∈ check_zoning_violations ZONING_RULES_CORRECTED propRmulti,
        v.vtype = VType.incompatible_use) ↔
      (classify_land_use propRmulti.land_use_desc ≠ "unknown" ∧
       classify_land_use propRmulti.land_use_desc ≠ "vacant" ∧
       (ZONING_RULES_CORRECTED.get ⟨0, by decide⟩).2.allowed_uses ≠ [] ∧
       classify_land_use propRmulti.land_use_desc ∉
         (ZONING_RULES_CORRECTED.get ⟨0, by decide⟩).2.allowed_uses) :=
  (incompatible_use_exactly_when_disallowed propRmulti "R"
    ((ZONING_RULES_CORRECTED.get ⟨0, by decide⟩).2) rfl (by decide)).1

/-- The contribution of one property to the grand total of acres accumulated
by `calculate_metrics`: its acres when its zoning is truthy, else 0. -/
def acresDelta (p : Property) : ℚ :=
  match p.zoning with
  | none => 0
  | some z => if z = "" then 0 else p.parcel_area_acres

theorem metricsStep_snd (st : List (String × ZoneAcc) × ℚ) (p : Property) :
    (metricsStep st p).2 = st.2 + acresDelta p := by
  unfold metricsStep acresDelta
  cases p.zoning with
  | none => simp
  | some z => by_cases hne : z = "" <;> simp [hne]

theorem foldl_metricsStep_snd (l : List Property) :
    ∀ st : List (String × ZoneAcc) × ℚ,
      (List.foldl metricsStep st l).2 = st.2 + (l.map acresDelta).sum := by
  induction l with
  | nil => intro st; simp
  | cons p t ih =>
      intro st
      rw [List.foldl_cons, ih, metricsStep_snd, List.map_cons, List.sum_cons]
      ring

theorem metricsStep_sum_acres (st : List (String × ZoneAcc) × ℚ) (p : Property) :
    (((metricsStep st p).1.map (fun kv => kv.2.total_acres)).sum)
      = ((st.1.map (fun kv => kv.2.total_acres)).sum) + acresDelta p := by
  unfold metricsStep acresDelta
  cases p.zoning with
  | none => simp
  | some z =>
      by_cases hne : z = ""
      · simp [hne]
      · simp only [hne, if_neg, ite_false, if_false, Bool.false_eq_true, not_false_eq_true]
        apply sum_map_updAssoc
        · intro a
          rfl
        · rfl

theorem foldl_metricsStep_sum_acres (l : List Property) :
    ∀ st : List (String × ZoneAcc) × ℚ,
      (((List.foldl metricsStep st l).1.map (fun kv => kv.2.total_acres)).sum)
        = ((st.1.map (fun kv => kv.2.total_acres)).sum) + (l.map acresDelta).sum := by
  induction l with
  | nil => intro st; simp
  | cons p t ih =>
      intro st
      rw [List.foldl_cons, ih, metricsStep_sum_acres, List.map_cons, List.sum_cons]
      ring

theorem calculate_metrics_total_acres (props : List Property) :
    (calculate_metrics props).total_acres = (props.map acresDelta).sum := by
  have e : (calculate_metrics props).total_acres = (zoneAccum props).2 := rfl
  rw [e]
  have h := foldl_metricsStep_snd props ([], 0)
  simpa [zoneAccum] using h

theorem calculate_metrics_zone_keys (props : List Property) :
    (calculate_metrics props).zones.map Prod.fst = (zoneAccum props).1.map Prod.fst := by
  have e : (calculate_metrics props).zones
      = (zoneAccum props).1.map (fun kv => (kv.1, mkZoneMetrics (zoneAccum props).2 kv.2)) := rfl
  rw [e, List.map_map]
  rfl

theorem keys_metricsStep (st : List (String × ZoneAcc) × ℚ) (p : Property) {z : String}
    (h : z ∈ st.1.map Prod.fst) : z ∈ (metricsStep st p).1.map Prod.fst := by
  unfold metricsStep
  cases p.zoning with
  | none => exact h
  | some z' =>
      by_cases hne : z' = ""
      · simpa [hne] using h
      · simp only [hne, ite_false, Bool.false_eq_true, if_false]
        exact (mem_keys_updAssoc st.1 z' z zoneAccInit _).mpr (Or.inr h)

theorem keys_foldl_metricsStep (l : List Property) :
    ∀ st : List (String × ZoneAcc) × ℚ, ∀ z : String, z ∈ st.1.map Prod.fst →
      z ∈ (List.foldl metricsStep st l).1.map Prod.fst := by
  induction l with
  | nil => intro st z h; exact h
  | cons p t ih => intro st z h; exact ih _ z (keys_metricsStep st p h)

theorem mem_props_mem_keys {p : Property} {z : String}
    (hz : p.zoning = some z) (hne : z ≠ "") (l : List Property) :
    ∀ st : List (String × ZoneAcc) × ℚ, p ∈ l →
      z ∈ (List.foldl metricsStep st l).1.map Prod.fst := by
  induction l with
  | nil => intro st h; simp at h
  | cons q t ih =>
      intro st hmem
      rcases List.mem_cons.mp hmem with h | h
      · subst h
        rw [List.foldl_cons]
        apply keys_foldl_metricsStep
        unfold metricsStep
        rw [hz]
        simp only [hne, ite_false, Bool.false_eq_true, if_false]
        exact (mem_keys_updAssoc st.1 z z zoneAccInit _).mpr (Or.inl rfl)
      · rw [List.foldl_cons]
        exact ih _ h

/-- A demonstration property of 0.004 acres in zone `SRA`: its per-zone
acres round to 0.00 while the aggregate keeps the unrounded 0.004. -/
def propTinySRA : Property :=
  { parcel_id := "0105-0005", address := "5 Example St", owner := "OWNER E",
    zoning := some "SRA", land_use_desc := some "SINGLE FAM RES",
    total_value := 100000, land_value := 50000,
    parcel_area_acres := 1/250, parcel_area_sqft := 43560 / 250,
    building_footprint_sqft := 0, lot_coverage_pct := 0 }

/-- Claim C1, counterexample. `propXYZ` has non-empty zoning code `XYZ`,
which is not a key of the corrected rule table: its violation list is empty
as claimed, but `calculate_metrics` does create a `ZoneMetrics` entry keyed
`XYZ` and does add its 1 acre to the aggregate `total_acres`, so the record
does participate in the per-zone aggregates, contrary to the claim. -/
theorem unknown_zone_participates_counterexample :
    check_zoning_violations ZONING_RULES_CORRECTED propXYZ = [] ∧
    lookupA ZONING_RULES_CORRECTED "XYZ" = none ∧
    (calculate_metrics [propXYZ]).zones.map Prod.fst = ["XYZ"] ∧
    (calculate_metrics [propXYZ]).total_acres = 1 ∧
    (calculate_metrics [propXYZ]).total_acres ≠ 0 := by
  refine ⟨by decide, by decide, ?_, ?_, ?_⟩
  · rw [calculate_metrics_zone_keys]
    simp +decide [zoneAccum, metricsStep, updAssoc, zoneAccInit, landUseOrUnknown, propXYZ]
  · rw [calculate_metrics_total_acres]
    simp +decide [acresDelta, propXYZ]
  · rw [calculate_metrics_total_acres]
    simp +decide [acresDelta, propXYZ]

/-- Claim C1, amended. A property whose zoning code is non-empty but not a
key of the corrected rule table yields an empty violation list from the
Violation Evaluator, but it does participate in the Zone Metrics
Aggregator: whenever it occurs in the collection, a zone entry keyed by its
own code appears in the result, and its acres are added to the aggregate
`total_acres`.  Only an absent or empty zoning code excludes a record from
the per-zone aggregates. -/
theorem unknown_zone_amended (p : Property) (z : String)
    (hz : p.zoning = some z) (hne : z ≠ "")
    (hlk : lookupA ZONING_RULES_CORRECTED z = none) :
    check_zoning_violations ZONING_RULES_CORRECTED p = [] ∧
    (∀ props : List Property, p ∈ props →
       z ∈ (calculate_metrics props).zones.map Prod.fst) ∧
    (∀ rest : List Property,
       (calculate_metrics (p :: rest)).total_acres
         = p.parcel_area_acres + (calculate_metrics rest).total_acres) := by
  refine ⟨by simp [check_zoning_violations, hz, hne, hlk], ?_, ?_⟩
  · intro props hp
    rw [calculate_metrics_zone_keys]
    exact mem_props_mem_keys hz hne props ([], 0) hp
  · intro rest
    rw [calculate_metrics_total_acres, calculate_metrics_total_acres,
      List.map_cons, List.sum_cons]
    have : acresDelta p = p.parcel_area_acres := by
      simp [acresDelta, hz, hne]
    rw [this]

theorem unknown_zone_amended_witness :
    check_zoning_violations ZONING_RULES_CORRECTED propXYZ = [] ∧
    "XYZ" ∈ (calculate_metrics [propXYZ]).zones.map Prod.fst :=
  ⟨(unknown_zone_amended propXYZ "XYZ" rfl (by decide) (by decide)).1,
   (unknown_zone_amended propXYZ "XYZ" rfl (by decide) (by decide)).2.1
     [propXYZ] (List.mem_singleton.mpr rfl)⟩

/-- Claim C2, counterexample. With the single property `propTinySRA`
(0.004 acres in zone `SRA`), the reported per-zone `total_acres` values are
rounded to two decimal places and sum to 0, while the reported aggregate
`total_acres` is the unrounded 0.004: the sum of the reported per-zone
values does not equal the reported aggregate. -/
theorem reported_acres_conservation_counterexample :
    ((calculate_metrics [propTinySRA]).zones.map (fun kv => kv.2.total_acres)).sum = 0 ∧
    (calculate_metrics [propTinySRA]).total_acres = 1/250 ∧
    ¬ (((calculate_metrics [propTinySRA]).zones.map (fun kv => kv.2.total_acres)).sum
        = (calculate_metrics [propTinySRA]).total_acres) := by
  have e2 : (calculate_metrics [propTinySRA]).zones
      = (zoneAccum [propTinySRA]).1.map
          (fun kv => (kv.1, mkZoneMetrics (zoneAccum [propTinySRA]).2 kv.2)) := rfl
  have e : (calculate_metrics [propTinySRA]).zones.map (fun kv => kv.2.total_acres)
      = (zoneAccum [propTinySRA]).1.map (fun kv => round2 kv.2.total_acres) := by
    rw [e2, List.map_map]
    rfl
  have hacc : (zoneAccum [propTinySRA]).1.map (fun kv => round2 kv.2.total_acres)
      = [round2 (1/250)] := by
    simp +decide [zoneAccum, metricsStep, updAssoc, zoneAccInit, landUseOrUnknown,
      propTinySRA]
  have hr : round2 ((1 : ℚ)/250) = 0 := by
    norm_num [round2, halfEven]
  have ht : (calculate_metrics [propTinySRA]).total_acres = 1/250 := by
    rw [calculate_metrics_total_acres]
    simp +decide [acresDelta, propTinySRA]
  refine ⟨by rw [e, hacc, hr]; simp, ht, ?_⟩
  rw [e, hacc, hr, ht]
  norm_num

/-- Claim C2, amended. Conservation holds for the unrounded accumulator: the
sum over all zones of the accumulated (unrounded) per-zone `total_acres`
equals the aggregate `total_acres` reported by `calculate_metrics`.  (The
claim fails for the reported per-zone values only because they are rounded
to two decimal places while the aggregate is not.) -/
theorem acres_conservation_unrounded (props : List Property) :
    ((zoneAccum props).1.map (fun kv => kv.2.total_acres)).sum
      = (calculate_metrics props).total_acres := by
  have e : (calculate_metrics props).total_acres = (zoneAccum props).2 := rfl
  have h1 := foldl_metricsStep_sum_acres props ([], 0)
  have h2 := foldl_metricsStep_snd props ([], 0)
  rw [e]
  unfold zoneAccum
  rw [h1, h2]
  simp

theorem round2_zero : round2 0 = 0 := by
  norm_num [round2, halfEven]

theorem roundTo_zero (n : ℕ) : roundTo n 0 = 0 := by
  norm_num [roundTo, halfEven]

/-- Claim C9. In every derived-ratio computation of the core, a zero
denominator yields 0 rather than an error: `percent_of_land` (zero grand
total) and `revenue_density` (zero zone acres) in the Zone Metrics
Aggregator, group `revenue_density`, `violation_rate` and
`parcels_per_acre` in the comparative layer, the four cross-group ratio
comparisons, and the per-zone infrastructure cost and fiscal sustainability
ratio (unset or zero frontage, zero estimated cost). -/
theorem zero_denominator_yields_zero :
    (∀ d : ZoneAcc, (mkZoneMetrics 0 d).percent_of_land = 0) ∧
    (∀ total : ℚ, ∀ d : ZoneAcc, d.total_acres = 0 →
       (mkZoneMetrics total d).revenue_density = 0) ∧
    (∀ s : GroupStats, s.total_acres = 0 →
       (deriveGroupRates s).revenue_density = 0 ∧
       (deriveGroupRates s).parcels_per_acre = 0) ∧
    (∀ s : GroupStats, s.total_parcels = 0 → (deriveGroupRates s).violation_rate = 0) ∧
    (∀ sf mf : GroupStats, mf.total_acres = 0 → (comparisonRatios sf mf).land_ratio = 0) ∧
    (∀ sf mf : GroupStats, mf.total_value = 0 → (comparisonRatios sf mf).value_ratio = 0) ∧
    (∀ sf mf : GroupStats, sf.revenue_density = 0 →
       (comparisonRatios sf mf).density_ratio = 0) ∧
    (∀ sf mf : GroupStats, sf.parcels_per_acre = 0 →
       (comparisonRatios sf mf).parcel_density_ratio = 0) ∧
    (∀ r : ZoneRule, ∀ d : ZoneAcc,
       r.min_frontage_ft = none ∨ r.min_frontage_ft = some 0 →
       (infraZoneMetrics r d).est_infrastructure_cost_per_parcel = 0 ∧
       (infraZoneMetrics r d).fiscal_sustainability_ratio = 0) ∧
    (∀ r : ZoneRule, ∀ d : ZoneAcc,
       (infraZoneMetrics r d).est_infrastructure_cost_per_parcel = 0 →
       (infraZoneMetrics r d).fiscal_sustainability_ratio = 0) := by
  have hcost : ∀ r : ZoneRule, ∀ d : ZoneAcc,
      (infraZoneMetrics r d).est_infrastructure_cost_per_parcel
        = (if truthyOpt r.min_frontage_ft then r.min_frontage_ft.getD 0 * 500 else 0) :=
    fun r d => rfl
  have hfis : ∀ r : ZoneRule, ∀ d : ZoneAcc,
      (infraZoneMetrics r d).fiscal_sustainability_ratio
        = roundTo 2
            (if 0 < (infraZoneMetrics r d).est_infrastructure_cost_per_parcel then
              (d.total_value / (d.parcel_count : ℚ))
                / (infraZoneMetrics r d).est_infrastructure_cost_per_parcel
            else 0) :=
    fun r d => rfl
  refine ⟨?_, ?_, ?_, ?_, ?_, ?_, ?_, ?_, ?_, ?_⟩
  · intro d
    simp [mkZoneMetrics, lt_irrefl, round2_zero]
  · intro total d h
    simp [mkZoneMetrics, h, round2_zero]
  · intro s h
    constructor <;> simp [deriveGroupRates, h]
  · intro s h
    simp [deriveGroupRates, h]
  · intro sf mf h
    simp [comparisonRatios, h]
  · intro sf mf h
    simp [comparisonRatios, h]
  · intro sf mf h
    simp [comparisonRatios, h]
  · intro sf mf h
    simp [comparisonRatios, h]
  · intro r d h
    have h0 : (infraZoneMetrics r d).est_infrastructure_cost_per_parcel = 0 := by
      rcases h with h | h <;> simp [hcost, truthyOpt, h]
    refine ⟨h0, ?_⟩
    rw [hfis, h0]
    simp [roundTo_zero]
  · intro r d h
    rw [hfis, h]
    simp [roundTo_zero]

theorem zero_denominator_yields_zero_witness :
    (mkZoneMetrics 0 zoneAccInit).percent_of_land = 0 ∧
    (deriveGroupRates groupStatsInit).violation_rate = 0 ∧
    (comparisonRatios groupStatsInit groupStatsInit).land_ratio = 0 :=
  ⟨zero_denominator_yields_zero.1 zoneAccInit,
   zero_denominator_yields_zero.2.2.2.1 groupStatsInit rfl,
   zero_denominator_yields_zero.2.2.2.2.1 groupStatsInit groupStatsInit rfl⟩

/-- The per-zone summary read from an aggregation state, defaulting to the
fresh summary (mirrors a defaultdict read). -/
def summaryAt (st : List (String × ZoneSummary)) (z : String) : ZoneSummary :=
  (lookupA st z).getD zoneSummaryInit

/-- Number of violations of type `t` in a violation list. -/
def typeCount (t : VType) (vs : List Violation) : ℕ :=
  vs.countP (fun v => decide (v.vtype = t))

theorem bumpTypes_lookup (vs : List Violation) :
    ∀ m : List (VType × ℕ), ∀ t : VType,
      (lookupA (bumpTypes m vs) t).getD 0 = (lookupA m t).getD 0 + typeCount t vs := by
  induction vs with
  | nil => intro m t; simp [bumpTypes, typeCount]
  | cons v vs ih =>
      intro m t
      have e : bumpTypes m (v :: vs) = bumpTypes (updAssoc m v.vtype 0 (· + 1)) vs := rfl
      rw [e, ih]
      by_cases ht : t = v.vtype
      · subst ht
        rw [lookupA_updAssoc_self]
        simp only [Option.getD_some, typeCount, List.countP_cons]
        simp
        omega
      · rw [lookupA_updAssoc_ne _ _ _ ht]
        simp only [typeCount, List.countP_cons]
        have : (decide (v.vtype = t)) = false := by
          simp [Ne.symm ht]
        simp [this]

theorem vioUpd_total_parcels (check : Property → List Violation) (cap : ℕ)
    (p : Property) (s : ZoneSummary) :
    (vioUpd check cap p s).total_parcels = s.total_parcels + 1 := by
  unfold vioUpd
  by_cases hv : check p = []
  · simp [hv]
  · simp only [hv, if_neg, ite_false, if_false]
    split <;> simp [hv]

theorem vioUpd_parcels_with_violations (check : Property → List Violation) (cap : ℕ)
    (p : Property) (s : ZoneSummary) :
    (vioUpd check cap p s).parcels_with_violations
      = s.parcels_with_violations + (if check p = [] then 0 else 1) := by
  unfold vioUpd
  by_cases hv : check p = []
  · simp [hv]
  · simp only [hv, if_neg, ite_false, if_false]
    split <;> simp [hv]

theorem vioUpd_violations_by_type (check : Property → List Violation) (cap : ℕ)
    (p : Property) (s : ZoneSummary) :
    (vioUpd check cap p s).violations_by_type
      = (if check p = [] then s.violations_by_type
         else bumpTypes s.violations_by_type (check p)) := by
  unfold vioUpd
  by_cases hv : check p = []
  · simp [hv]
  · simp only [hv, if_neg, ite_false, if_false]
    split <;> simp [hv]

theorem summaryAt_vioStep (check : Property → List Violation) (cap : ℕ)
    (st : List (String × ZoneSummary) × List (Property × List Violation))
    (p : Property) {z : String} (hz : z ≠ "") :
    summaryAt (vioStep check cap st p).1 z =
      (if p.zoning = some z then vioUpd check cap p (summaryAt st.1 z)
       else summaryAt st.1 z) := by
  unfold vioStep
  cases hp : p.zoning with
  | none => simp
  | some z' =>
      by_cases hne : z' = ""
      · subst hne
        have : ¬ (some "" = some z) := by
          simp [Ne.symm hz]
        simp [this]
      · simp only [hne, ite_false, Bool.false_eq_true, if_false]
        by_cases hzz : z' = z
        · subst hzz
          simp only [if_pos rfl, summaryAt, lookupA_updAssoc_self, Option.getD_some]
          simp
        · have : ¬ (some z' = some z) := by
            simp [hzz]
          simp only [this, if_neg, ite_false, Bool.false_eq_true, if_false,
            summaryAt, lookupA_updAssoc_ne st.1 zoneSummaryInit _ (Ne.symm hzz)]

theorem foldl_vioStep_counts (check : Property → List Violation) (cap : ℕ)
    {z : String} (hz : z ≠ "") (l : List Property) :
    ∀ st : List (String × ZoneSummary) × List (Property × List Violation),
      (summaryAt (List.foldl (vioStep check cap) st l).1 z).total_parcels
        = (summaryAt st.1 z).total_parcels
          + l.countP (fun p => decide (p.zoning = some z)) ∧
      (summaryAt (List.foldl (vioStep check cap) st l).1 z).parcels_with_violations
        = (summaryAt st.1 z).parcels_with_violations
          + l.countP (fun p => decide (p.zoning = some z) && decide (check p ≠ [])) ∧
      ∀ t : VType,
        (lookupA (summaryAt (List.foldl (vioStep check cap) st l).1 z).violations_by_type
            t).getD 0
          = (lookupA (summaryAt st.1 z).violations_by_type t).getD 0
            + ((l.filter (fun p => decide (p.zoning = some z))).map
                (fun p => typeCount t (check p))).sum := by
  induction l with
  | nil => intro st; simp
  | cons p l ih =>
      intro st
      rw [List.foldl_cons]
      obtain ⟨ih1, ih2, ih3⟩ := ih (vioStep check cap st p)
      have hst := summaryAt_vioStep check cap st p hz
      by_cases hpz : p.zoning = some z
      · rw [if_pos hpz] at hst
        refine ⟨?_, ?_, ?_⟩
        · rw [ih1, hst, vioUpd_total_parcels, List.countP_cons]
          simp [hpz]
          omega
        · rw [ih2, hst, vioUpd_parcels_with_violations, List.countP_cons]
          by_cases hv : check p = []
          · simp [hpz, hv]
          · simp [hpz, hv]
            omega
        · intro t
          rw [ih3 t, hst, vioUpd_violations_by_type, List.filter_cons]
          by_cases hv : check p = []
          · simp only [if_pos hv]
            simp [hpz, hv, typeCount]
          · simp only [if_neg hv]
            rw [bumpTypes_lookup]
            simp [hpz]
            omega
      · rw [if_neg hpz] at hst
        refine ⟨?_, ?_, ?_⟩
        · rw [ih1, hst, List.countP_cons]
          simp [hpz]
        · rw [ih2, hst, List.countP_cons]
          simp [hpz]
        · intro t
          rw [ih3 t, hst, List.filter_cons]
          simp [hpz]

theorem vioUpd_examples_length (check : Property → List Violation) (cap : ℕ)
    (p : Property) (s : ZoneSummary) (h : s.examples.length ≤ cap) :
    (vioUpd check cap p s).examples.length ≤ cap := by
  unfold vioUpd
  by_cases hv : check p = []
  · simpa [hv] using h
  · simp only [hv, if_neg, ite_false, if_false]
    split
    · rename_i hlen
      simp only [List.length_append, List.length_cons, List.length_nil] at hlen ⊢
      omega
    · simpa using h

theorem examples_bound_vioStep (check : Property → List Violation) (cap : ℕ)
    (st : List (String × ZoneSummary) × List (Property × List Violation)) (p : Property)
    (h : ∀ x ∈ st.1, (x : String × ZoneSummary).2.examples.length ≤ cap) :
    ∀ x ∈ (vioStep check cap st p).1, x.2.examples.length ≤ cap := by
  intro x hx
  unfold vioStep at hx
  cases hp : p.zoning with
  | none =>
      rw [hp] at hx
      exact h x hx
  | some z' =>
      rw [hp] at hx
      by_cases hne : z' = ""
      · simp only [hne, ite_true, if_true] at hx
        exact h x hx
      · simp only [hne, ite_false, Bool.false_eq_true, if_false] at hx
        rcases mem_updAssoc hx with hmem | ⟨hx1, hx2⟩
        · exact h x hmem
        · rw [hx2]
          apply vioUpd_examples_length
          cases hl : lookupA st.1 z' with
          | none => simp [zoneSummaryInit]
          | some s => simpa using h (z', s) (lookupA_mem hl)

theorem examples_bound_foldl (check : Property → List Violation) (cap : ℕ)
    (l : List Property) :
    ∀ st : List (String × ZoneSummary) × List (Property × List Violation),
      (∀ x ∈ st.1, (x : String × ZoneSummary).2.examples.length ≤ cap) →
      ∀ x ∈ (List.foldl (vioStep check cap) st l).1, x.2.examples.length ≤ cap := by
  induction l with
  | nil => intro st h; exact h
  | cons p l ih =>
      intro st h
      rw [List.foldl_cons]
      exact ih _ (examples_bound_vioStep check cap st p h)

/-- Claim C8. For every property collection, each zone's examples list in the
violation aggregator output has length at most the example cap (5 in
`analyze_properties`, 10 in `analyze_violations`), while the per-zone counts
`total_parcels`, `parcels_with_violations` and `violations_by_type` are
exact over the full collection (they equal the corresponding counts computed
directly from the collection) and therefore coincide with the counts
produced under any other cap value. -/
theorem aggregator_examples_capped_counts_exact
    (check : Property → List Violation) (cap : ℕ) (props : List Property) (z : String) :
    (∀ s : ZoneSummary, (z, s) ∈ (analyzeGen check cap props).violations_by_zone →
       s.examples.length ≤ cap) ∧
    (∀ s : ZoneSummary, (z, s) ∈ (analyze_properties props).violations_by_zone →
       s.examples.length ≤ 5) ∧
    (∀ s : ZoneSummary, (z, s) ∈ (analyze_violations props).violations_by_zone →
       s.examples.length ≤ 10) ∧
    (z ≠ "" →
      ((summaryAt (analyzeGen check cap props).violations_by_zone z).total_parcels
         = props.countP (fun p => decide (p.zoning = some z)) ∧
       (summaryAt (analyzeGen check cap props).violations_by_zone z).parcels_with_violations
         = props.countP (fun p => decide (p.zoning = some z) && decide (check p ≠ [])) ∧
       (∀ t : VType,
         (lookupA (summaryAt (analyzeGen check cap props).violations_by_zone
             z).violations_by_type t).getD 0
           = ((props.filter (fun p => decide (p.zoning = some z))).map
               (fun p => typeCount t (check p))).sum) ∧
       (∀ cap' : ℕ,
         (summaryAt (analyzeGen check cap' props).violations_by_zone z).total_parcels
           = (summaryAt (analyzeGen check cap props).violations_by_zone z).total_parcels ∧
         (summaryAt (analyzeGen check cap' props).violations_by_zone
             z).parcels_with_violations
           = (summaryAt (analyzeGen check cap props).violations_by_zone
               z).parcels_with_violations ∧
         ∀ t : VType,
           (lookupA (summaryAt (analyzeGen check cap' props).violations_by_zone
               z).violations_by_type t).getD 0
             = (lookupA (summaryAt (analyzeGen check cap props).violations_by_zone
                 z).violations_by_type t).getD 0))) := by
  have hgen : ∀ c : ℕ, (analyzeGen check c props).violations_by_zone
      = (List.foldl (vioStep check c) ([], []) props).1 := fun c => rfl
  have base : ∀ c : ℕ, z ≠ "" →
      (summaryAt (analyzeGen check c props).violations_by_zone z).total_parcels
        = props.countP (fun p => decide (p.zoning = some z)) ∧
      (summaryAt (analyzeGen check c props).violations_by_zone z).parcels_with_violations
        = props.countP (fun p => decide (p.zoning = some z) && decide (check p ≠ [])) ∧
      ∀ t : VType,
        (lookupA (summaryAt (analyzeGen check c props).violations_by_zone
            z).violations_by_type t).getD 0
          = ((props.filter (fun p => decide (p.zoning = some z))).map
              (fun p => typeCount t (check p))).sum := by
    intro c hzne
    obtain ⟨h1, h2, h3⟩ := foldl_vioStep_counts check c hzne props ([], [])
    rw [hgen c]
    refine ⟨?_, ?_, fun t => ?_⟩
    · rw [h1]
      simp [summaryAt, lookupA, zoneSummaryInit]
    · rw [h2]
      simp [summaryAt, lookupA, zoneSummaryInit]
    · rw [h3 t]
      simp [summaryAt, lookupA, zoneSummaryInit]
  refine ⟨?_, ?_, ?_, fun hzne =>
    ⟨(base cap hzne).1, (base cap hzne).2.1, (base cap hzne).2.2, fun cap' =>
      ⟨by rw [(base cap' hzne).1, (base cap hzne).1],
       by rw [(base cap' hzne).2.1, (base cap hzne).2.1],
       fun t => by rw [(base cap' hzne).2.2 t, (base cap hzne).2.2 t]⟩⟩⟩
  · intro s hs
    refine examples_bound_foldl check cap props ([], []) (by simp) (z, s) ?_
    rw [← hgen cap]
    exact hs
  · intro s hs
    exact examples_bound_foldl (check_zoning_violations ZONING_RULES) 5 props
      ([], []) (by simp) (z, s) hs
  · intro s hs
    exact examples_bound_foldl (check_zoning_violations ZONING_RULES_CORRECTED) 10 props
      ([], []) (by simp) (z, s) hs

theorem aggregator_examples_capped_counts_exact_witness :
    (summaryAt (analyzeGen (check_zoning_violations ZONING_RULES_CORRECTED) 10
        [propSRB14999]).violations_by_zone "SRB").total_parcels
      = [propSRB14999].countP (fun p => decide (p.zoning = some "SRB")) :=
  ((aggregator_examples_capped_counts_exact
      (check_zoning_violations ZONING_RULES_CORRECTED) 10 [propSRB14999] "SRB").2.2.2
      (by decide)).1
